import Mathlib

/-!
Verification of the AlgoCredit security middleware stack against its
specification.  The definitions below are a shallow embedding of
`src/security/rate_limiter.py`, `src/security/api_key_manager.py` and
`src/security/transaction_validator.py`:

* Python floats (timestamps, token counts, risk scores) are modelled as `ℚ`.
* Python `int(x)` (truncation toward zero) is modelled by `pyInt`.
* Redis hashes/sets are modelled by function-typed stores from key strings to
  field lists / member lists; a store access raising an exception is modelled
  by a `healthy` flag consulted at the first access of a call (exceptions can
  only originate in the store client, and the first failing access aborts the
  call before any mutation).
* Dynamically typed transaction payload values are modelled by `PyVal`, so
  that the `TypeError` raised by comparing a non-numeric field with an
  integer is representable as an `Except.error`.
-/

/-- Python `int(x)` for a rational: truncation toward zero
(`q.num.div q.den` is T-division; the denominator is positive). -/
def pyInt (q : ℚ) : ℤ := q.num.tdiv q.den

/-! ## Rate limiter (`rate_limiter.py`) -/

/-- `RateLimitAction` enum from `rate_limiter.py`. -/
inductive RateLimitAction where
  | ALLOW
  | THROTTLE
  | BLOCK
  | CAPTCHA
deriving DecidableEq, Repr

/-- `RateLimitResult` dataclass from `rate_limiter.py`
(`threat_level` defaults to `0.0`). -/
structure RateLimitResult where
  action : RateLimitAction
  remaining_requests : ℤ
  reset_time : ℤ
  retry_after : Option ℤ := Option.none
  threat_level : ℚ := 0
deriving DecidableEq, Repr

/-- One tier entry of `AdaptiveRateLimiter.default_limits`
(`requests_per_minute`, `requests_per_hour`, `burst_capacity`). -/
structure Limits where
  requests_per_minute : ℚ
  requests_per_hour : ℚ
  burst_capacity : ℚ
deriving DecidableEq, Repr

/-- State of one token bucket as persisted in the Redis hash:
`tokens` and `last_refill` (the `last_request` field is written but never
read, so it is not carried). -/
structure BucketState where
  tokens : ℚ
  last_refill : ℚ
deriving DecidableEq, Repr

/-- `AdaptiveRateLimiter.default_limits`: tier lookup with `"free"` as the
`dict.get` default. -/
def default_limits (tier : String) : Limits :=
  if tier = "free" then ⟨60, 1000, 10⟩
  else if tier = "pro" then ⟨300, 10000, 50⟩
  else if tier = "enterprise" then ⟨1000, 50000, 200⟩
  else ⟨60, 1000, 10⟩

/-- `AdaptiveRateLimiter._adjust_limits_for_threat`: scale all three limits by
`max(0.1, 1 - threat_score/10)` and truncate each with `int()`. -/
def adjust_limits_for_threat (base : Limits) (threat_score : ℚ) : Limits :=
  let threat_multiplier := max (1/10) (1 - threat_score / 10)
  ⟨(pyInt (base.requests_per_minute * threat_multiplier) : ℚ),
   (pyInt (base.requests_per_hour * threat_multiplier) : ℚ),
   (pyInt (base.burst_capacity * threat_multiplier) : ℚ)⟩

/-- `AdaptiveRateLimiter._token_bucket_check`.  The Redis hash for the bucket
key is modelled as `Option BucketState` (`none` = key absent); the function
returns the `RateLimitResult` together with the state written back
(`hset` + 1-hour `expire`; bucket expiry between calls is modelled by
starting a run from `none`). -/
def token_bucket_check (limits : Limits) (bucket_data : Option BucketState)
    (current_time : ℚ) : RateLimitResult × BucketState :=
  let tokens0 : ℚ :=
    match bucket_data with
    | some b => b.tokens
    | Option.none => limits.burst_capacity
  let last_refill : ℚ :=
    match bucket_data with
    | some b => b.last_refill
    | Option.none => current_time
  let time_elapsed := current_time - last_refill
  let tokens_to_add := time_elapsed * (limits.requests_per_minute / 60)
  let tokens1 := min limits.burst_capacity (tokens0 + tokens_to_add)
  let tokens := if 1 ≤ tokens1 then tokens1 - 1 else tokens1
  let action :=
    if 1 ≤ tokens1 then RateLimitAction.ALLOW
    else if 1/10 < tokens1 then RateLimitAction.THROTTLE
    else RateLimitAction.BLOCK
  let remaining : ℤ := if 1 ≤ tokens1 then pyInt tokens else 0
  let reset_time : ℤ :=
    if tokens < limits.burst_capacity then
      pyInt (current_time + (limits.burst_capacity - tokens) * 60 / limits.requests_per_minute)
    else
      pyInt (current_time + 60)
  let retry_after : Option ℤ :=
    if 1 ≤ tokens1 then Option.none
    else some (pyInt (60 - tokens * 60 / limits.requests_per_minute))
  (⟨action, remaining, reset_time, retry_after, 0⟩, ⟨tokens, current_time⟩)

/-- `AdaptiveRateLimiter.check_rate_limit` for a single bucket key: look up
the tier limits, adjust them for the threat score, and run the token bucket
check (the Redis key construction only selects the bucket; one fixed bucket
is modelled). -/
def check_rate_limit (tier : String) (threat_score : ℚ)
    (bucket_data : Option BucketState) (current_time : ℚ) :
    RateLimitResult × BucketState :=
  token_bucket_check (adjust_limits_for_threat (default_limits tier) threat_score)
    bucket_data current_time

/-- Run `token_bucket_check` over a sequence of call times against one
bucket, threading the stored state. -/
def runBucket (limits : Limits) :
    Option BucketState → List ℚ → List RateLimitResult × Option BucketState
  | bucket, [] => ([], bucket)
  | bucket, t :: ts =>
      let step := token_bucket_check limits bucket t
      let rest := runBucket limits (some step.2) ts
      (step.1 :: rest.1, rest.2)

/-- The successive stored bucket states of a run (one per call). -/
def bucketTrace (limits : Limits) :
    Option BucketState → List ℚ → List BucketState
  | _, [] => []
  | bucket, t :: ts =>
      let s := (token_bucket_check limits bucket t).2
      s :: bucketTrace limits (some s) ts

/-- Run `check_rate_limit` (fixed tier and threat score) over a sequence of
call times against one bucket. -/
def runRateLimit (tier : String) (threat_score : ℚ) :
    Option BucketState → List ℚ → List RateLimitResult × Option BucketState
  | bucket, [] => ([], bucket)
  | bucket, t :: ts =>
      let step := check_rate_limit tier threat_score bucket t
      let rest := runRateLimit tier threat_score (some step.2) ts
      (step.1 :: rest.1, rest.2)

/-- Number of requests a result list allowed. -/
def countAllowed (rs : List RateLimitResult) : ℕ :=
  (rs.filter (fun r => r.action = RateLimitAction.ALLOW)).length

/-- Tokens of the final bucket state of a run, with a default for the
never-initialised case. -/
def finalTokens (p : List RateLimitResult × Option BucketState) (d : ℚ) : ℚ :=
  match p.2 with
  | some b => b.tokens
  | Option.none => d

/-! ## API key manager (`api_key_manager.py`) -/

/-- `SecurityContext` dataclass from `api_key_manager.py`.  The Python
`rate_limits` dict is an association list; `ip_whitelist` defaults to `None`,
`is_valid` to `True`, `threat_score` to `0.0`. -/
structure SecurityContext where
  api_key_id : String
  user_id : String
  tier : String
  permissions : List String
  rate_limits : List (String × ℤ)
  ip_whitelist : Option (List String) := Option.none
  is_valid : Bool := true
  threat_score : ℚ := 0
deriving DecidableEq, Repr

/-- Update one field of a Redis-hash association list (replace the first
binding for the field, or append it; hash fields are unique keys). -/
def setField : List (String × String) → String → String → List (String × String)
  | [], f, v => [(f, v)]
  | (k, w) :: t, f, v =>
      if k = f then (f, v) :: t else (k, w) :: setField t f v

/-- The key-value store of the API key manager: Redis hash keys to field
lists, Redis set keys to member lists.  `healthy = false` models the store
client raising on access. -/
structure KVStore where
  hashes : String → List (String × String)
  sets : String → List String
  healthy : Bool

/-- An empty healthy store. -/
def emptyKV : KVStore := ⟨fun _ => [], fun _ => [], true⟩

/-- `redis.hset key field value` on the store (models the successful call). -/
def hset (st : KVStore) (k f v : String) : KVStore :=
  { st with hashes := fun k2 => if k2 = k then setField (st.hashes k) f v else st.hashes k2 }

/-- Parse a list of decimal digits. -/
def digitsToNat? (ds : List Char) : Option ℕ :=
  if ds = [] then Option.none
  else if ds.all Char.isDigit then
    some (ds.foldl (fun n c => 10 * n + (c.toNat - 48)) 0)
  else Option.none

/-- Parse a decimal integer string (the parse Redis `hincrby` applies to a
stored field; it errors on anything else, and the manager only ever
increments the integer-valued `usage_count` field). -/
def strToInt? (s : String) : Option ℤ :=
  match s.data with
  | '-' :: ds => (digitsToNat? ds).map (fun n => -(n : ℤ))
  | ds => (digitsToNat? ds).map (fun n => (n : ℤ))

/-- `redis.hincrby key field n`: parse the current field as an integer
(missing field counts as 0) and store the incremented value. -/
def hincrby (st : KVStore) (k f : String) (n : ℤ) : KVStore :=
  hset st k f (toString ((((st.hashes k).lookup f).bind strToInt?).getD 0 + n))

/-- Parse a decimal numeral string as stored by `str(float)` /
`str(int)` (used for the `threat_score` field read back by validation). -/
def parseFloat (s : String) : ℚ :=
  let neg := s.data.take 1 = ['-']
  let s1 := if neg then String.mk (s.data.drop 1) else s
  let q : ℚ :=
    match s1.splitOn "." with
    | [a] => ((a.toNat?.getD 0 : ℤ) : ℚ)
    | [a, b] => ((a.toNat?.getD 0 : ℤ) : ℚ) + ((b.toNat?.getD 0 : ℤ) : ℚ) / (10 ^ b.length)
    | _ => 0
  if neg then -q else q

/-- Python `s[:n]` on a string. -/
def pySlice (s : String) (n : ℕ) : String := String.mk (s.data.take n)

/-- The malformed-token check at the top of
`APIKeyManager.validate_api_key`:
`api_key.startswith("ac_live_") and len(api_key) == 40`
(`startswith` modelled on the character list). -/
def key_format_ok (api_key : String) : Bool :=
  (api_key.data.take 8 == "ac_live_".data) && (api_key.length == 40)

/-- `APIKeyManager._get_tier_permissions`. -/
def get_tier_permissions (tier : String) : List String :=
  if tier = "free" then ["credit_score", "basic_validation"]
  else if tier = "pro" then
    ["credit_score", "transaction_validation", "threat_detection", "webhooks"]
  else if tier = "enterprise" then ["*"]
  else []

/-- `APIKeyManager._get_tier_rate_limits` (the `"free"` entry is the
`dict.get` default). -/
def get_tier_rate_limits (tier : String) : List (String × ℤ) :=
  if tier = "pro" then
    [("requests_per_minute", 300), ("requests_per_hour", 10000), ("requests_per_day", 100000)]
  else if tier = "enterprise" then
    [("requests_per_minute", 1000), ("requests_per_hour", 50000), ("requests_per_day", 1000000)]
  else
    [("requests_per_minute", 60), ("requests_per_hour", 1000), ("requests_per_day", 10000)]

/-- `APIKeyManager.generate_api_key`.  `hashlib.sha256(..).hexdigest()` is an
external library call, passed in as `hexdigest` (a real hexdigest is a
64-character hex string); `now` is `int(time.time())`.  The stored metadata
fields are each written with `str(value)` (`str(None) = "None"`). -/
def generate_api_key (hexdigest : String → String) (st : KVStore)
    (user_id : String) (tier : String) (now : ℤ) : String × KVStore :=
  let timestamp := toString now
  let raw_key := user_id ++ ":" ++ timestamp ++ ":" ++ tier
  let api_key := "ac_live_" ++ pySlice (hexdigest raw_key) 32
  let fields : List (String × String) :=
    [("user_id", user_id), ("tier", tier), ("created_at", timestamp),
     ("status", "active"), ("last_used", "None"), ("usage_count", "0"),
     ("threat_score", "0.0")]
  (api_key, fields.foldl (fun s p => hset s ("api_key:" ++ api_key) p.1 p.2) st)

/-- `APIKeyManager.validate_api_key`.  Returns the `SecurityContext` together
with the resulting store state.  The `try/except` wrapping the body is
modelled by the `healthy` flag: when the store client raises, it does so at
the first access (`hgetall`), before any mutation, and the handler returns
the invalid context.  `if ip_address:` is Python truthiness (a `None` or
empty client IP skips the whitelist check); `redis.exists` on a set key is
non-emptiness. -/
def validate_api_key (st : KVStore) (api_key : String)
    (ip_address : Option String) (now : ℤ) : SecurityContext × KVStore :=
  let invalid : SecurityContext := ⟨"", "", "", [], [], Option.none, false, 0⟩
  if ¬ key_format_ok api_key then (invalid, st)
  else if ¬ st.healthy then (invalid, st)
  else
    let key_data := st.hashes ("api_key:" ++ api_key)
    if key_data.isEmpty then (invalid, st)
    else if ((key_data.lookup "status").getD "") ≠ "active" then (invalid, st)
    else
      -- usage statistics are updated before the IP whitelist check
      let st1 := hincrby st ("api_key:" ++ api_key) "usage_count" 1
      let st2 := hset st1 ("api_key:" ++ api_key) "last_used" (toString now)
      let wkey := "api_key_whitelist:" ++ api_key
      let rejectedByIp : Bool :=
        match ip_address with
        | some ip => ip ≠ "" && !(st2.sets wkey).isEmpty && !(st2.sets wkey).contains ip
        | Option.none => false
      if rejectedByIp then (invalid, st2)
      else
        let tier := (key_data.lookup "tier").getD "free"
        let user_id := (key_data.lookup "user_id").getD ""
        let threat_score := parseFloat ((key_data.lookup "threat_score").getD "0.0")
        (⟨api_key, user_id, tier, get_tier_permissions tier, get_tier_rate_limits tier,
          Option.none, true, threat_score⟩, st2)

/-- `APIKeyManager.update_threat_score`: overwrite the stored score and
auto-suspend the key when the score exceeds `8.0`. -/
def update_threat_score (st : KVStore) (api_key : String) (threat_score : ℚ) : KVStore :=
  let st1 := hset st ("api_key:" ++ api_key) "threat_score" (toString threat_score)
  if threat_score > 8 then
    hset st1 ("api_key:" ++ api_key) "status" "suspended"
  else st1

/-! ## Transaction validator (`transaction_validator.py`) -/

/-- A scalar element of an application-call argument list (the Algorand
payload shape has scalar string/bytes/int arguments; containers do not nest
further in a transaction payload). -/
inductive PyAtom where
  | none : PyAtom
  | int : ℤ → PyAtom
  | str : String → PyAtom
deriving DecidableEq, Repr

/-- Dynamically typed Python values occurring in a transaction payload. -/
inductive PyVal where
  | none : PyVal
  | int : ℤ → PyVal
  | str : String → PyVal
  | list : List PyAtom → PyVal
deriving DecidableEq, Repr

/-- A transaction payload: a Python dict of field name to value. -/
def PyDict := List (String × PyVal)

/-- `transaction_data.get(k, default)`. -/
def pyGet (d : PyDict) (k : String) (default : PyVal) : PyVal :=
  ((List.lookup k d).getD default)

/-- `k in transaction_data`. -/
def pyHasKey (d : PyDict) (k : String) : Bool :=
  (List.lookup k d).isSome

/-- Python truthiness of a payload value. -/
def PyVal.truthy : PyVal → Bool
  | .none => false
  | .int n => n ≠ 0
  | .str s => s ≠ ""
  | .list xs => !xs.isEmpty

/-- `ValidationResult` enum. -/
inductive ValidationResult where
  | VALID
  | SUSPICIOUS
  | MALICIOUS
  | INVALID
deriving DecidableEq, Repr

/-- The `.value` string of a `ValidationResult`. -/
def ValidationResult.value : ValidationResult → String
  | .VALID => "valid"
  | .SUSPICIOUS => "suspicious"
  | .MALICIOUS => "malicious"
  | .INVALID => "invalid"

/-- `ValidationReport` dataclass (the `metadata` dict only ever holds the
`"error"` entry of the exception path). -/
structure ValidationReport where
  result : ValidationResult
  risk_score : ℚ
  issues : List String
  metadata : List (String × String)
  timestamp : ℚ
  recommendations : List String
deriving DecidableEq, Repr

/-- A Redis key with a value and an absolute expiry time (`setex` /
`lpush` + `expire`). -/
def TtlMap (α : Type) := String → Option (α × ℚ)

/-- Look up a key that is still live at `now` (Redis drops expired keys). -/
def tlive {α : Type} (m : TtlMap α) (now : ℚ) (k : String) : Option α :=
  match m k with
  | some (v, exp) => if now < exp then some v else Option.none
  | Option.none => Option.none

/-- Write a key with an absolute expiry time. -/
def tset {α : Type} (m : TtlMap α) (k : String) (v : α) (exp : ℚ) : TtlMap α :=
  fun k2 => if k2 = k then some (v, exp) else m k2

/-- The store state touched by `TransactionValidator` (db 4).  Numeric
strings are modelled by their parsed values; the `flash_sequence` list holds
the raw `"amount:time"` strings (only its length is ever read); the
malicious-contract set holds the parsed integer members; `validations` is
the log written by `_store_validation_result`. -/
structure VStore where
  wallet_avg : TtlMap ℚ
  wallet_count : TtlMap ℤ
  wallet_balance : TtlMap ℚ
  replay : TtlMap ℚ
  mev_timing : TtlMap (List ℚ)
  flash_sequence : TtlMap (List String)
  temporal : TtlMap (List ℚ)
  malicious_contracts : List ℤ
  validations : List (String × String × String × ℚ × ℚ)

/-- A fresh validator store with a given malicious-contract set. -/
def freshVStore (mal : List ℤ) : VStore :=
  ⟨fun _ => Option.none, fun _ => Option.none, fun _ => Option.none,
   fun _ => Option.none, fun _ => Option.none, fun _ => Option.none,
   fun _ => Option.none, mal, []⟩

/-- The validator instance state: the blacklist/whitelist sets from
`__init__` and the external `algosdk.encoding.decode_address` success
predicate (a format-only check external to this code). -/
structure TransactionValidator where
  blacklisted_addresses : List String
  whitelisted_addresses : List String
  decode_address_ok : String → Bool

/-- `TransactionValidator._is_valid_algorand_address`.  Non-string values
make `len(address)` or the decode raise inside the bare `except`, which
returns `False`; a falsy or non-58-character string returns `False`. -/
def is_valid_algorand_address (v : TransactionValidator) : PyVal → Bool
  | .str s => if s = "" ∨ s.length ≠ 58 then false else v.decode_address_ok s
  | _ => false

/-- `TransactionValidator._validate_basic_structure`.  Comparing a
non-integer `fee` with `1000` raises `TypeError`, which propagates to the
caller; that is the `Except.error` case. -/
def validate_basic_structure (tx : PyDict) : Except String (List String × ℚ) :=
  let required := ["type", "sender", "fee"]
  let missing := required.filter (fun f => ¬ pyHasKey tx f)
  let issues1 := missing.map (fun f => "Missing required field: " ++ f)
  let risk1 : ℚ := 2 * missing.length
  let valid_types := ["pay", "keyreg", "acfg", "axfer", "afrz", "appl"]
  let tx_type := pyGet tx "type" .none
  let typeBad := tx_type.truthy && !(valid_types.any (fun t => tx_type == .str t))
  let issues2 := if typeBad then ["Invalid transaction type"] else []
  let risk2 : ℚ := if typeBad then 3 else 0
  match pyGet tx "fee" (.int 0) with
  | .int fee =>
      let (issues3, risk3) :=
        if fee < 1000 then (["Transaction fee too low"], (1 : ℚ))
        else if fee > 10000 then (["Transaction fee unusually high"], 2)
        else ([], 0)
      .ok (issues1 ++ issues2 ++ issues3, risk1 + risk2 + risk3)
  | _ => .error "TypeError: fee comparison"

/-- The sender section of `TransactionValidator._validate_addresses`
(lines 196-203).  A truthy list-valued sender is unhashable, so
`sender in self.blacklisted_addresses` raises `TypeError` at line 198;
`_validate_addresses` has no `try`, so the exception propagates.  Hashable
non-string values are simply not members of the string set. -/
def validate_sender_part (v : TransactionValidator) (tx : PyDict) :
    Except String (List String × ℚ) :=
  let sender := pyGet tx "sender" .none
  if sender.truthy then
    match sender with
    | .list _ => .error "TypeError: unhashable sender in set membership"
    | _ =>
      let senderBlacklisted :=
        match sender with
        | .str s => v.blacklisted_addresses.contains s
        | _ => false
      if senderBlacklisted then .ok (["Sender address is blacklisted"], (8 : ℚ))
      else if ¬ is_valid_algorand_address v sender then
        .ok (["Invalid sender address format"], 5)
      else .ok ([], 0)
  else .ok ([], 0)

/-- The receiver section of `TransactionValidator._validate_addresses`
(lines 205-215), reached only when the sender section did not raise.  A
truthy list-valued receiver of a payment transaction is unhashable and
raises `TypeError` at line 209. -/
def validate_receiver_part (v : TransactionValidator) (tx : PyDict) :
    Except String (List String × ℚ) :=
  if pyGet tx "type" .none = .str "pay" then
    let receiver := pyGet tx "receiver" .none
    if receiver.truthy then
      match receiver with
      | .list _ => .error "TypeError: unhashable receiver in set membership"
      | _ =>
        let receiverBlacklisted :=
          match receiver with
          | .str s => v.blacklisted_addresses.contains s
          | _ => false
        if receiverBlacklisted then .ok (["Receiver address is blacklisted"], (6 : ℚ))
        else if ¬ is_valid_algorand_address v receiver then
          .ok (["Invalid receiver address format"], 3)
        else .ok ([], 0)
    else .ok ([], 0)
  else .ok ([], 0)

/-- `TransactionValidator._validate_addresses`: sender section, then
receiver section; a `TypeError` from either propagates to the caller. -/
def validate_addresses (v : TransactionValidator) (tx : PyDict) :
    Except String (List String × ℚ) :=
  match validate_sender_part v tx with
  | .error e => .error e
  | .ok (issues1, risk1) =>
    match validate_receiver_part v tx with
    | .error e => .error e
    | .ok (issues2, risk2) => .ok (issues1 ++ issues2, risk1 + risk2)

/-- `TransactionValidator._update_wallet_average` (7-day TTLs; its own
`try/except` never fires in this model since the stored values are already
numeric). -/
def update_wallet_average (wallet : String) (amount : ℤ) (st : VStore) (now : ℚ) : VStore :=
  let avg_key := "wallet_avg:" ++ wallet
  let count_key := "wallet_count:" ++ wallet
  let current_avg := (tlive st.wallet_avg now avg_key).getD 0
  let current_count := (tlive st.wallet_count now count_key).getD 0
  let new_count := current_count + 1
  let new_avg := (current_avg * current_count + amount) / (new_count : ℚ)
  { st with
    wallet_avg := tset st.wallet_avg avg_key new_avg (now + 86400 * 7),
    wallet_count := tset st.wallet_count count_key new_count (now + 86400 * 7) }

/-- `TransactionValidator._validate_amounts`.  Comparing a non-integer
`amount` with `0` raises `TypeError`, which propagates to the caller
(before any store write).  A stored average is a non-empty string, hence
truthy, whatever its numeric value. -/
def validate_amounts (wallet : String) (tx : PyDict) (st : VStore) (now : ℚ) :
    Except String ((List String × ℚ) × VStore) :=
  match pyGet tx "amount" (.int 0) with
  | .int amount =>
      if amount ≤ 0 then .ok (([], 0), st)
      else
        let avg_key := "wallet_avg:" ++ wallet
        let (issues, risk) :=
          match tlive st.wallet_avg now avg_key with
          | some avg_amount =>
              let big := (amount : ℚ) > avg_amount * 100 ∧ amount > 10 * 1000000
              let (i1, r1) :=
                if big then (["Amount is much larger than the wallet average"], (3 : ℚ))
                else ([], 0)
              let round := amount % 1000000 = 0 ∧ amount > 100 * 1000000
              let (i2, r2) :=
                if round then
                  (["Suspiciously round amount (potential automated attack)"], (1 : ℚ))
                else ([], 0)
              (i1 ++ i2, r1 + r2)
          | Option.none => ([], 0)
        .ok ((issues, risk), update_wallet_average wallet amount st now)
  | _ => .error "TypeError: amount comparison"

/-- Canonical rendering of a scalar argument value. -/
def pyAtomRepr : PyAtom → String
  | .none => "None"
  | .int n => toString n
  | .str s => s

/-- Canonical rendering of a payload value inside the fingerprint input. -/
def pyValRepr : PyVal → String
  | .none => "None"
  | .int n => toString n
  | .str s => s
  | .list xs => "[" ++ String.intercalate ", " (xs.map pyAtomRepr) ++ "]"

/-- `TransactionValidator._create_advanced_fingerprint`: the canonicalised
(sorted-key, `None`-free) rendering of the eight fingerprint fields.  The
code feeds this canonical string to SHA-256; the hash is modelled as the
canonical string itself, since no claim depends on hash collisions and
equal field sets give equal fingerprints either way. -/
def create_advanced_fingerprint (tx : PyDict) : String :=
  let fields : List (String × PyVal) :=
    [("amount", pyGet tx "amount" .none),
     ("application_args", .str (pyValRepr (pyGet tx "application_args" (.list [])))),
     ("application_id", pyGet tx "application_id" .none),
     ("fee", pyGet tx "fee" .none),
     ("note", pyGet tx "note" .none),
     ("receiver", pyGet tx "receiver" .none),
     ("sender", pyGet tx "sender" .none),
     ("type", pyGet tx "type" .none)]
  let clean := fields.filter (fun p => p.2 != PyVal.none)
  String.intercalate "," (clean.map (fun p => p.1 ++ "=" ++ pyValRepr p.2))

/-- `TransactionValidator._detect_replay_attack` (1-hour `setex` on the
fingerprint key; time bands 60 s / 300 s).  Its internal `try/except`
never fires in this model. -/
def detect_replay_attack (api_key : String) (tx : PyDict) (st : VStore) (now : ℚ) :
    (List String × ℚ) × VStore :=
  let fingerprint := create_advanced_fingerprint tx
  let replay_key := "replay:" ++ api_key ++ ":" ++ fingerprint
  let (issues, risk) :=
    match tlive st.replay now replay_key with
    | some last_seen =>
        let time_diff := now - last_seen
        if time_diff < 60 then
          (["Potential replay attack - identical transaction " ++ toString time_diff ++ "s ago"],
           (7 : ℚ))
        else if time_diff < 300 then
          (["Suspicious duplicate transaction - " ++ toString time_diff ++ "s ago"], 3)
        else ([], 0)
    | Option.none => ([], 0)
  ((issues, risk), { st with replay := tset st.replay replay_key now (now + 3600) })

/-- `TransactionValidator._detect_mev_attack` (`lpush` + 5-minute `expire`;
`lrange 0 10` reads the 11 most recent timestamps).  A non-integer `amount`
raises at `amount > 1000000`; the surrounding `try/except` then returns the
issues and risk accumulated so far. -/
def detect_mev_attack (wallet : String) (tx : PyDict) (st : VStore) (now : ℚ) :
    (List String × ℚ) × VStore :=
  let timing_key := "mev_timing:" ++ wallet
  let lst := now :: ((tlive st.mev_timing now timing_key).getD [])
  let st2 := { st with mev_timing := tset st.mev_timing timing_key lst (now + 300) }
  let recent_times := lst.take 11
  if recent_times.length ≥ 3 then
    let time_diffs := (recent_times.zip recent_times.tail).map (fun p => p.1 - p.2)
    let avg_interval := time_diffs.sum / (time_diffs.length : ℚ)
    let (i1, r1) :=
      if avg_interval < 10 then
        (["Rapid transaction pattern detected"], (4 : ℚ))
      else ([], 0)
    match pyGet tx "amount" (.int 0) with
    | .int amount =>
        if amount > 1000000 then
          ((i1 ++ ["Potential sandwich attack pattern"], r1 + 5), st2)
        else ((i1, r1), st2)
    | _ => ((i1, r1), st2)
  else (([], 0), st2)

/-- `TransactionValidator._detect_flash_loan_attack` (`lpush` + 1-minute
`expire`; `lrange 0 5` reads 6 entries).  A non-integer `amount` raises at
the very first comparison, and the surrounding `try/except` returns zero
risk with the store untouched. -/
def detect_flash_loan_attack (wallet : String) (tx : PyDict) (st : VStore) (now : ℚ) :
    (List String × ℚ) × VStore :=
  match pyGet tx "amount" (.int 0) with
  | .int amount =>
      if amount > 100000 * 1000000 then
        let balance_key := "wallet_balance:" ++ wallet
        let (i1, r1) :=
          match tlive st.wallet_balance now balance_key with
          | some balance =>
              if (amount : ℚ) > balance * 10 then
                (["Flash loan indicator - amount greatly exceeds typical balance"], (6 : ℚ))
              else ([], 0)
          | Option.none => ([], 0)
        let sequence_key := "flash_sequence:" ++ wallet
        let lst := (toString amount ++ ":" ++ toString now)
          :: ((tlive st.flash_sequence now sequence_key).getD [])
        let st2 := { st with
          flash_sequence := tset st.flash_sequence sequence_key lst (now + 60) }
        let seq := lst.take 6
        if seq.length ≥ 3 then
          ((i1 ++ ["Multiple large transactions in short timeframe"], r1 + 4), st2)
        else ((i1, r1), st2)
      else (([], 0), st)
  | _ => (([], 0), st)

/-- Substring test on character lists (Python `pat in s`). -/
def hasSubstring (pat : List Char) : List Char → Bool
  | [] => pat.isEmpty
  | c :: t => pat.isPrefixOf (c :: t) || hasSubstring pat t

/-- The fixed suspicious-substring list of
`TransactionValidator._contains_suspicious_args`. -/
def suspicious_patterns : List String :=
  ["reentrancy", "overflow", "underflow", "drain", "exploit"]

/-- `TransactionValidator._contains_suspicious_args`: only string elements
of a list argument are scanned (lower-cased substring match); iterating a
non-iterable raises inside the bare `except`, returning `False`, and
iterating a string yields single characters, each shorter than every
pattern. -/
def contains_suspicious_args (app_args : PyVal) : Bool :=
  match app_args with
  | .list xs =>
      xs.any (fun arg =>
        match arg with
        | .str s => suspicious_patterns.any (fun p => hasSubstring p.toList s.toLower.toList)
        | _ => false)
  | _ => false

/-- `TransactionValidator._validate_contract_interaction`: only runs for
application-call (`"appl"`) transactions.  A list-valued `application_id`
is unhashable, so `app_id in self._get_malicious_contracts()` raises
`TypeError` at line 361 (this sub-check has no `try`, so the exception
propagates); a missing or hashable non-integer `application_id` is simply
not a member of the malicious-contract set of integers. -/
def validate_contract_interaction (tx : PyDict) (st : VStore) :
    Except String (List String × ℚ) :=
  if pyGet tx "type" .none = .str "appl" then
    let app_id := pyGet tx "application_id" .none
    match app_id with
    | .list _ => .error "TypeError: unhashable application id in set membership"
    | _ =>
      let blacklisted :=
        match app_id with
        | .int a => st.malicious_contracts.contains a
        | _ => false
      let (i1, r1) :=
        if blacklisted then
          (["Interaction with known malicious contract"], (9 : ℚ))
        else ([], 0)
      let app_args := pyGet tx "application_args" (.list [])
      let (i2, r2) :=
        if contains_suspicious_args app_args then
          (["Suspicious application call arguments detected"], (3 : ℚ))
        else ([], 0)
      .ok (i1 ++ i2, r1 + r2)
  else .ok ([], 0)

/-- `TransactionValidator._analyze_temporal_patterns` (`lpush` + 1-hour
`expire`; `lrange 0 20` reads 21 entries).  `std_dev < 2.0` with
`std_dev = variance ** 0.5` is stated as `variance < 4` (squaring is an
order isomorphism on nonnegatives, and the variance is a mean of squares). -/
def analyze_temporal_patterns (wallet api_key : String) (st : VStore) (now : ℚ) :
    (List String × ℚ) × VStore :=
  let pattern_key := "temporal:" ++ api_key ++ ":" ++ wallet
  let lst := now :: ((tlive st.temporal now pattern_key).getD [])
  let st2 := { st with temporal := tset st.temporal pattern_key lst (now + 3600) }
  let recent_times := lst.take 21
  if recent_times.length ≥ 5 then
    let intervals := (recent_times.zip recent_times.tail).map (fun p => p.1 - p.2)
    if intervals.isEmpty then (([], 0), st2)
    else
      let avg_interval := intervals.sum / (intervals.length : ℚ)
      let variance :=
        (intervals.map (fun x => (x - avg_interval) ^ 2)).sum / (intervals.length : ℚ)
      let (i1, r1) :=
        if variance < 4 ∧ avg_interval < 30 then
          (["Bot-like regular intervals detected"], (2 : ℚ))
        else ([], 0)
      let (i2, r2) :=
        if avg_interval < 5 then
          (["Suspiciously frequent requests"], (3 : ℚ))
        else ([], 0)
      ((i1 ++ i2, r1 + r2), st2)
  else (([], 0), st2)

/-- `TransactionValidator._store_validation_result` (30-day retention; the
Redis key `validation:int(now):api_key` and its hash fields are kept as one
log entry). -/
def store_validation_result (wallet api_key : String) (result : ValidationResult)
    (risk_score : ℚ) (st : VStore) (now : ℚ) : VStore :=
  { st with validations := (api_key, wallet, result.value, risk_score, now) :: st.validations }

/-- The body of the `try` block of
`TransactionValidator.validate_transaction`: the eight sub-checks in source
order, the cumulative risk score, and the verdict thresholds.  The
exceptions that can escape a sub-check are the `TypeError`s of checks 1, 2,
3 and 7 (checks 4, 5, 6 and 8 swallow their own exceptions); the error case
carries the store as it was when the exception was raised — unchanged for
checks 1-3, which raise before any store write, but with the writes of
checks 3-6 already persisted for a raise in check 7. -/
def validate_transaction_core (v : TransactionValidator) (wallet : String)
    (tx : PyDict) (api_key : String) (st : VStore) (now : ℚ) :
    Except (String × VStore) (ValidationReport × VStore) :=
  match validate_basic_structure tx with
  | .error e => .error (e, st)
  | .ok (basic_issues, basic_risk) =>
    match validate_addresses v tx with
    | .error e => .error (e, st)
    | .ok (address_issues, address_risk) =>
    match validate_amounts wallet tx st now with
    | .error e => .error (e, st)
    | .ok ((amount_issues, amount_risk), st1) =>
      let ((replay_issues, replay_risk), st2) := detect_replay_attack api_key tx st1 now
      let ((mev_issues, mev_risk), st3) := detect_mev_attack wallet tx st2 now
      let ((flash_issues, flash_risk), st4) := detect_flash_loan_attack wallet tx st3 now
      match validate_contract_interaction tx st4 with
      | .error e => .error (e, st4)
      | .ok (contract_issues, contract_risk) =>
      let ((temporal_issues, temporal_risk), st5) :=
        analyze_temporal_patterns wallet api_key st4 now
      let risk_score := basic_risk + address_risk + amount_risk + replay_risk
        + mev_risk + flash_risk + contract_risk + temporal_risk
      let issues := basic_issues ++ address_issues ++ amount_issues ++ replay_issues
        ++ mev_issues ++ flash_issues ++ contract_issues ++ temporal_issues
      let (result, recommendations) :=
        if risk_score ≥ 8 then
          (ValidationResult.MALICIOUS,
           ["Block transaction immediately", "Investigate wallet address",
            "Consider suspending API key"])
        else if risk_score ≥ 5 then
          (ValidationResult.SUSPICIOUS,
           ["Require additional verification", "Monitor closely", "Consider rate limiting"])
        else if risk_score ≥ 2 then
          (ValidationResult.SUSPICIOUS, ["Monitor transaction", "Log for analysis"])
        else (ValidationResult.VALID, ["Transaction appears safe"])
      let st6 := store_validation_result wallet api_key result risk_score st5 now
      .ok (⟨result, risk_score, issues, [], now, recommendations⟩, st6)

/-- `TransactionValidator.validate_transaction`: the `try` body plus the
fail-closed `except` handler, which returns an `INVALID` report with risk
`10.0`, the store being as it was when the exception was raised. -/
def validate_transaction (v : TransactionValidator) (wallet : String)
    (tx : PyDict) (api_key : String) (st : VStore) (now : ℚ) :
    ValidationReport × VStore :=
  match validate_transaction_core v wallet tx api_key st now with
  | .ok r => r
  | .error (e, stE) =>
      (⟨ValidationResult.INVALID, 10, ["Validation error: " ++ e], [("error", e)], now,
        ["Block due to validation error"]⟩, stE)


/-! ## Concrete example inputs -/

/-- A well-formed 40-character key (the format `validate_api_key` checks). -/
def exampleKey : String := "ac_live_0123456789abcdef0123456789abcdef"

/-- A store holding an active record for `exampleKey` with usage count 0 and
an IP whitelist containing only `1.2.3.4`. -/
def exampleKeyStore : KVStore :=
  ⟨fun k => if k = "api_key:" ++ exampleKey then
      [("user_id", "user1"), ("tier", "free"), ("status", "active"),
       ("usage_count", "0"), ("threat_score", "0.0")]
    else [],
   fun k => if k = "api_key_whitelist:" ++ exampleKey then ["1.2.3.4"] else [],
   true⟩

/-- A syntactically valid 58-character Algorand address. -/
def exampleSender : String :=
  "AAAAAAAAAAAAAAAAAAAAAAAAAAAAAAAAAAAAAAAAAAAAAAAAAAAAAAAAAA"

/-- A validator instance whose external address decoder accepts everything
(the decode itself is outside this code). -/
def exampleValidator : TransactionValidator :=
  ⟨[], ["Y76M3MSY6DKBRHBL7C3NNDXGS5IIMQVQVUAB6MP4XEMMGVF2QWNPL226CA"], fun _ => true⟩

/-- A payment transaction naming a blacklisted contract id (999) in its
`application_id` field, with every other field benign. -/
def examplePayTx : PyDict :=
  [("type", PyVal.str "pay"), ("sender", PyVal.str exampleSender),
   ("fee", PyVal.int 1000), ("application_id", PyVal.int 999)]

/-- The same payload as an application call. -/
def exampleApplTx : PyDict :=
  [("type", PyVal.str "appl"), ("sender", PyVal.str exampleSender),
   ("fee", PyVal.int 1000), ("application_id", PyVal.int 999)]

/-- A payload whose `fee` field holds a string, so that
`_validate_basic_structure` raises `TypeError` on `fee < 1000`. -/
def exampleBadFeeTx : PyDict :=
  [("type", PyVal.str "pay"), ("sender", PyVal.str exampleSender),
   ("fee", PyVal.str "high")]

/-- A benign zero-amount payment with all required fields present. -/
def exampleZeroTx : PyDict :=
  [("type", PyVal.str "pay"), ("sender", PyVal.str exampleSender),
   ("fee", PyVal.int 1000), ("amount", PyVal.int 0)]

/-- A validator store whose only entry is a replay fingerprint for
`exampleZeroTx` under key `"k1"`, recorded at time 1000 with the 1-hour
`setex` TTL. -/
def exampleReplayStore : VStore :=
  { freshVStore [] with
    replay := tset (freshVStore []).replay
      ("replay:" ++ "k1" ++ ":" ++ create_advanced_fingerprint exampleZeroTx)
      1000 (1000 + 3600) }

/-! ## Theorems -/

section RateLimiterTheorems

set_option maxRecDepth 10000

attribute [local semireducible] Rat.add Rat.sub Rat.mul Rat.inv Rat.ofScientific

lemma countAllowed_cons (r : RateLimitResult) (rs : List RateLimitResult) :
    countAllowed (r :: rs)
      = (if r.action = RateLimitAction.ALLOW then 1 else 0) + countAllowed rs := by
  by_cases h : r.action = RateLimitAction.ALLOW
  · simp [countAllowed, List.filter_cons, h, Nat.add_comm]
  · simp [countAllowed, List.filter_cons, h]

lemma runRateLimit_eq (tier : String) (threat : ℚ) :
    ∀ (times : List ℚ) (b : Option BucketState),
      runRateLimit tier threat b times
        = runBucket (adjust_limits_for_threat (default_limits tier) threat) b times
  | [], _ => rfl
  | t :: ts, b => by
      simp only [runRateLimit, runBucket, check_rate_limit, runRateLimit_eq tier threat ts]

lemma token_bucket_check_none (limits : Limits) (t : ℚ) :
    token_bucket_check limits Option.none t
      = token_bucket_check limits (some ⟨limits.burst_capacity, t⟩) t := rfl

/-- The stored state written by one bucket step. -/
lemma token_bucket_check_snd (limits : Limits) (b : BucketState) (t : ℚ) :
    (token_bucket_check limits (some b) t).2
      = ⟨if 1 ≤ min limits.burst_capacity
              (b.tokens + (t - b.last_refill) * (limits.requests_per_minute / 60))
          then min limits.burst_capacity
              (b.tokens + (t - b.last_refill) * (limits.requests_per_minute / 60)) - 1
          else min limits.burst_capacity
              (b.tokens + (t - b.last_refill) * (limits.requests_per_minute / 60)),
         t⟩ := rfl

/-- The action returned by one bucket step. -/
lemma token_bucket_check_action (limits : Limits) (b : BucketState) (t : ℚ) :
    (token_bucket_check limits (some b) t).1.action
      = (if 1 ≤ min limits.burst_capacity
              (b.tokens + (t - b.last_refill) * (limits.requests_per_minute / 60))
          then RateLimitAction.ALLOW
          else if 1/10 < min limits.burst_capacity
              (b.tokens + (t - b.last_refill) * (limits.requests_per_minute / 60))
            then RateLimitAction.THROTTLE
            else RateLimitAction.BLOCK) := rfl

/-- One bucket step: the new `last_refill` is the call time, the stored token
count stays in `[0, burst_capacity]`, and one token of budget is spent per
allowed request. -/
lemma token_bucket_step (limits : Limits) (b : BucketState) (t : ℚ)
    (hcap : 0 ≤ limits.burst_capacity) (hr : 0 ≤ limits.requests_per_minute)
    (htok : 0 ≤ b.tokens) (ht : b.last_refill ≤ t) :
    (token_bucket_check limits (some b) t).2.last_refill = t ∧
    0 ≤ (token_bucket_check limits (some b) t).2.tokens ∧
    (token_bucket_check limits (some b) t).2.tokens ≤ limits.burst_capacity ∧
    (if (token_bucket_check limits (some b) t).1.action = RateLimitAction.ALLOW
        then (1 : ℚ) else 0)
        + (token_bucket_check limits (some b) t).2.tokens
      ≤ b.tokens + (t - b.last_refill) * (limits.requests_per_minute / 60) := by
  rw [token_bucket_check_action, token_bucket_check_snd]
  set tokens1 := min limits.burst_capacity
    (b.tokens + (t - b.last_refill) * (limits.requests_per_minute / 60)) with htokens1
  have h1 : tokens1 ≤ limits.burst_capacity := min_le_left _ _
  have h2 : tokens1 ≤ b.tokens + (t - b.last_refill) * (limits.requests_per_minute / 60) :=
    min_le_right _ _
  have h0 : 0 ≤ tokens1 := by
    refine le_min hcap ?_
    have hΔ : 0 ≤ (t - b.last_refill) * (limits.requests_per_minute / 60) :=
      mul_nonneg (by linarith) (by positivity)
    linarith
  by_cases hge : 1 ≤ tokens1
  · simp only [if_pos hge]
    refine ⟨by trivial, by linarith, by linarith, ?_⟩
    simp only [if_true]
    linarith
  · simp only [if_neg hge]
    have hna : (if 1/10 < tokens1 then RateLimitAction.THROTTLE else RateLimitAction.BLOCK)
        ≠ RateLimitAction.ALLOW := by
      split <;> simp
    refine ⟨by trivial, by linarith, by linarith, ?_⟩
    rw [if_neg hna]
    linarith

/-- Over any time-sorted run started from an in-range state, every stored
token count stays in `[0, burst_capacity]`. -/
lemma bucketTrace_bounds (limits : Limits)
    (hcap : 0 ≤ limits.burst_capacity) (hr : 0 ≤ limits.requests_per_minute) :
    ∀ (times : List ℚ) (b : BucketState),
      List.Chain' (· ≤ ·) (b.last_refill :: times) → 0 ≤ b.tokens →
      ∀ s ∈ bucketTrace limits (some b) times,
        0 ≤ s.tokens ∧ s.tokens ≤ limits.burst_capacity
  | [], _, _, _ => by simp [bucketTrace]
  | t :: ts, b, hchain, htok => by
      have hle : b.last_refill ≤ t := (List.chain'_cons.mp hchain).1
      have hstep := token_bucket_step limits b t hcap hr htok hle
      intro s hs
      simp only [bucketTrace, List.mem_cons] at hs
      rcases hs with rfl | hs
      · exact ⟨hstep.2.1, hstep.2.2.1⟩
      · have hchain2 : List.Chain' (· ≤ ·)
            ((token_bucket_check limits (some b) t).2.last_refill :: ts) := by
          rw [hstep.1]
          exact (List.chain'_cons.mp hchain).2
        exact bucketTrace_bounds limits hcap hr ts _ hchain2 hstep.2.1 s hs

/-- Over any time-sorted run, the number of allowed requests plus the final
token count is bounded by the initial token count plus the total refill. -/
lemma runBucket_count (limits : Limits)
    (hcap : 0 ≤ limits.burst_capacity) (hr : 0 ≤ limits.requests_per_minute) :
    ∀ (times : List ℚ) (b : BucketState),
      List.Chain' (· ≤ ·) (b.last_refill :: times) → 0 ≤ b.tokens →
      0 ≤ finalTokens (runBucket limits (some b) times) 0 ∧
      (countAllowed (runBucket limits (some b) times).1 : ℚ)
          + finalTokens (runBucket limits (some b) times) 0
        ≤ b.tokens + (times.getLastD b.last_refill - b.last_refill)
            * (limits.requests_per_minute / 60)
  | [], b, _, htok => by
      simp [runBucket, finalTokens, countAllowed, htok]
  | t :: ts, b, hchain, htok => by
      have hle : b.last_refill ≤ t := (List.chain'_cons.mp hchain).1
      have hstep := token_bucket_step limits b t hcap hr htok hle
      have hchain2 : List.Chain' (· ≤ ·)
          ((token_bucket_check limits (some b) t).2.last_refill :: ts) := by
        rw [hstep.1]
        exact (List.chain'_cons.mp hchain).2
      have ih := runBucket_count limits hcap hr ts
        (token_bucket_check limits (some b) t).2 hchain2 hstep.2.1
      rw [hstep.1] at ih
      rcases ih with ⟨ih0, ih1⟩
      have hstep4 := hstep.2.2.2
      simp only [runBucket, finalTokens] at ih0 ih1 ⊢
      rw [countAllowed_cons, List.getLastD_cons]
      push_cast [apply_ite (Nat.cast : ℕ → ℚ)]
      refine ⟨ih0, ?_⟩
      ring_nf at hstep4 ih1 ⊢
      by_cases hact : (token_bucket_check limits (some b) t).1.action = RateLimitAction.ALLOW
      · rw [if_pos hact] at hstep4 ⊢
        linarith
      · rw [if_neg hact] at hstep4 ⊢
        linarith

lemma bucketTrace_none (limits : Limits) (t : ℚ) (ts : List ℚ) :
    bucketTrace limits Option.none (t :: ts)
      = bucketTrace limits (some ⟨limits.burst_capacity, t⟩) (t :: ts) := by
  simp only [bucketTrace, token_bucket_check_none]

lemma runBucket_none (limits : Limits) (t : ℚ) (ts : List ℚ) :
    runBucket limits Option.none (t :: ts)
      = runBucket limits (some ⟨limits.burst_capacity, t⟩) (t :: ts) := by
  simp only [runBucket, token_bucket_check_none]

/-- C1: over any time-ordered sequence of `check_rate_limit` calls against
one bucket (fixed tier and threat score, integer adjusted burst capacity
`capN`), the stored token count stays within `[0, burst_capacity]` — the
refill step is capped at `burst_capacity` and consumption never drives it
below `0` — and when the whole sequence fits in a window shorter than the
refill period of `60 / requests_per_minute` seconds, no more than
`burst_capacity` requests are allowed. -/
theorem C1_bucket_invariant_and_burst_bound (tier : String) (threat : ℚ) (capN : ℕ)
    (hcap : (adjust_limits_for_threat (default_limits tier) threat).burst_capacity = (capN : ℚ))
    (hrpm : 0 < (adjust_limits_for_threat (default_limits tier) threat).requests_per_minute)
    (times : List ℚ) (hchain : List.Chain' (· ≤ ·) times) :
    (∀ s ∈ bucketTrace (adjust_limits_for_threat (default_limits tier) threat)
        Option.none times, 0 ≤ s.tokens ∧ s.tokens ≤ (capN : ℚ)) ∧
    (times.getLastD 0 - times.headD 0
        < 60 / (adjust_limits_for_threat (default_limits tier) threat).requests_per_minute →
      countAllowed (runRateLimit tier threat Option.none times).1 ≤ capN) := by
  rw [runRateLimit_eq]
  set limits := adjust_limits_for_threat (default_limits tier) threat with hlim
  have hcap0 : 0 ≤ limits.burst_capacity := by rw [hcap]; positivity
  have hr0 : 0 ≤ limits.requests_per_minute := le_of_lt hrpm
  cases times with
  | nil =>
      refine ⟨by simp [bucketTrace], fun _ => by simp [runBucket, countAllowed]⟩
  | cons t ts =>
      have hchain2 : List.Chain' (· ≤ ·)
          ((⟨limits.burst_capacity, t⟩ : BucketState).last_refill :: t :: ts) :=
        List.chain'_cons.mpr ⟨le_refl t, hchain⟩
      constructor
      · rw [bucketTrace_none]
        intro s hs
        have hb := bucketTrace_bounds limits hcap0 hr0 (t :: ts)
          ⟨limits.burst_capacity, t⟩ hchain2 hcap0 s hs
        rw [hcap] at hb
        exact hb
      · intro hwin
        rw [runBucket_none]
        have hrun := runBucket_count limits hcap0 hr0 (t :: ts)
          ⟨limits.burst_capacity, t⟩ hchain2 hcap0
        rw [show (⟨limits.burst_capacity, t⟩ : BucketState).last_refill = t from rfl,
          show (⟨limits.burst_capacity, t⟩ : BucketState).tokens = limits.burst_capacity
            from rfl, List.getLastD_cons] at hrun
        rw [List.getLastD_cons, List.headD_cons] at hwin
        have hpos : 0 < limits.requests_per_minute / 60 := by positivity
        have hlt1 : (ts.getLastD t - t) * (limits.requests_per_minute / 60)
            < (60 / limits.requests_per_minute) * (limits.requests_per_minute / 60) :=
          mul_lt_mul_of_pos_right hwin hpos
        have hone : (60 / limits.requests_per_minute) * (limits.requests_per_minute / 60)
            = 1 := by
          field_simp
        have hcast : (countAllowed
            (runBucket limits (some ⟨limits.burst_capacity, t⟩) (t :: ts)).1 : ℚ)
            < limits.burst_capacity + 1 := by
          linarith [hrun.1, hrun.2]
        have hcast2 : (countAllowed
            (runBucket limits (some ⟨limits.burst_capacity, t⟩) (t :: ts)).1 : ℚ)
            < (capN : ℚ) + 1 := by
          rw [← hcap]
          exact hcast
        have : countAllowed
            (runBucket limits (some ⟨limits.burst_capacity, t⟩) (t :: ts)).1 < capN + 1 := by
          exact_mod_cast hcast2
        omega

/-- Witness for C1 at tier `"free"`, threat score `0`, capacity `10`, and
call times `0` and `1/2` (a window of half a second, shorter than the
one-second refill period). -/
theorem C1_bucket_invariant_and_burst_bound_witness :
    ((adjust_limits_for_threat (default_limits "free") 0).burst_capacity = ((10 : ℕ) : ℚ) ∧
     0 < (adjust_limits_for_threat (default_limits "free") 0).requests_per_minute ∧
     List.Chain' (· ≤ ·) [(0 : ℚ), 1/2]) ∧
    ((∀ s ∈ bucketTrace (adjust_limits_for_threat (default_limits "free") 0)
        Option.none [(0 : ℚ), 1/2], 0 ≤ s.tokens ∧ s.tokens ≤ ((10 : ℕ) : ℚ)) ∧
     ([(0 : ℚ), 1/2].getLastD 0 - [(0 : ℚ), 1/2].headD 0
        < 60 / (adjust_limits_for_threat (default_limits "free") 0).requests_per_minute →
      countAllowed (runRateLimit "free" 0 Option.none [(0 : ℚ), 1/2]).1 ≤ 10)) :=
  ⟨⟨by decide, by decide, List.chain'_pair.mpr (by norm_num)⟩,
   C1_bucket_invariant_and_burst_bound "free" 0 10 (by decide) (by decide)
     [(0 : ℚ), 1/2] (List.chain'_pair.mpr (by norm_num))⟩

/-- C2 counterexample: 61 `check_rate_limit` calls for a fresh free-tier
identifier with threat score 0, all inside one minute (all at time 0).
Only 10 requests are allowed — not 60 — and already the 11th request (not
the 61st) is rejected. -/
theorem C2_counterexample :
    countAllowed (runRateLimit "free" 0 Option.none (List.replicate 61 0)).1 = 10 ∧
    countAllowed (runRateLimit "free" 0 Option.none (List.replicate 61 0)).1 ≠ 60 ∧
    ((runRateLimit "free" 0 Option.none (List.replicate 61 0)).1[10]?).map
        (fun r => r.action) = some RateLimitAction.BLOCK := by
  decide

/-- C2 (amended): a free-tier identifier with threat score 0 is limited by
`burst_capacity = 10`, not by 60: back-to-back it is allowed exactly 10
requests, and the 11th immediate request is rejected as rate limited with
`remaining_requests = 0` and `retry_after > 0` (here `retry_after = 60`).
Spaced one second apart (the refill rate is 60 tokens per minute), 60
requests within a 60-second window are all allowed. -/
theorem C2_amended_burst_then_refill :
    (∀ r ∈ (runRateLimit "free" 0 Option.none
        ((List.range 60).map (fun n => (n : ℚ)))).1, r.action = RateLimitAction.ALLOW) ∧
    countAllowed (runRateLimit "free" 0 Option.none
        ((List.range 60).map (fun n => (n : ℚ)))).1 = 60 ∧
    countAllowed (runRateLimit "free" 0 Option.none (List.replicate 11 0)).1 = 10 ∧
    ((runRateLimit "free" 0 Option.none (List.replicate 11 0)).1[10]?).map
        (fun r => (r.action, r.remaining_requests, r.retry_after))
      = some (RateLimitAction.BLOCK, 0, some 60) := by
  decide

end RateLimiterTheorems

section ApiKeyTheorems

set_option maxRecDepth 10000

attribute [local semireducible] Rat.add Rat.sub Rat.mul Rat.inv Rat.ofScientific

lemma lookup_setField_self (fields : List (String × String)) (f v : String) :
    (setField fields f v).lookup f = some v := by
  induction fields with
  | nil => simp [setField, List.lookup]
  | cons p t ih =>
      obtain ⟨k, w⟩ := p
      by_cases h : k = f
      · simp [setField, h, List.lookup]
      · simp only [setField, if_neg h, List.lookup]
        have : (f == k) = false := by
          simp [beq_iff_eq]
          exact fun e => h e.symm
        simp [this, ih]

lemma lookup_setField_ne (fields : List (String × String)) (f g v : String)
    (h : g ≠ f) : (setField fields f v).lookup g = fields.lookup g := by
  induction fields with
  | nil =>
      simp only [setField, List.lookup]
      have : (g == f) = false := by simpa [beq_iff_eq] using h
      simp [this]
  | cons p t ih =>
      obtain ⟨k, w⟩ := p
      by_cases hk : k = f
      · subst hk
        simp only [setField, if_pos rfl, List.lookup]
        have : (g == k) = false := by simpa [beq_iff_eq] using h
        simp [this]
      · simp only [setField, if_neg hk, List.lookup]
        by_cases hg : g = k
        · simp [hg]
        · have : (g == k) = false := by simpa [beq_iff_eq] using hg
          simp [this, ih]

lemma setField_ne_nil (fields : List (String × String)) (f v : String) :
    setField fields f v ≠ [] := by
  cases fields with
  | nil => simp [setField]
  | cons p t =>
      obtain ⟨k, w⟩ := p
      by_cases h : k = f <;> simp [setField, h]

lemma hset_hashes_self (st : KVStore) (k f v : String) :
    (hset st k f v).hashes k = setField (st.hashes k) f v := by
  simp [hset]

lemma hset_healthy (st : KVStore) (k f v : String) :
    (hset st k f v).healthy = st.healthy := rfl

/-- C5: after `update_threat_score` with score 9 (above the 8.0 suspend
threshold), every subsequent `validate_api_key` call for that key returns an
invalid context, regardless of the status the key had before: the update
overwrites the stored status with `"suspended"`, and every other rejection
path (malformed key, store exception) is also invalid. -/
theorem C5_suspend_after_high_threat_score (st : KVStore) (api_key : String)
    (ip_address : Option String) (now : ℤ) :
    (validate_api_key (update_threat_score st api_key 9) api_key ip_address now).1.is_valid
      = false := by
  unfold validate_api_key
  by_cases hfmt : key_format_ok api_key
  · simp only [hfmt, not_true, if_neg, if_false]
    by_cases hh : (update_threat_score st api_key 9).healthy
    · have hnine : (9 : ℚ) > 8 := by norm_num
      have hkey : (update_threat_score st api_key 9).hashes ("api_key:" ++ api_key)
          = setField (setField (st.hashes ("api_key:" ++ api_key))
              "threat_score" (toString (9 : ℚ))) "status" "suspended" := by
        unfold update_threat_score
        rw [if_pos hnine]
        rw [hset_hashes_self, hset_hashes_self]
      have hne : ¬ ((update_threat_score st api_key 9).hashes
          ("api_key:" ++ api_key)).isEmpty = true := by
        rw [hkey]
        simp [List.isEmpty_iff, setField_ne_nil]
      have hstatus : (((update_threat_score st api_key 9).hashes
          ("api_key:" ++ api_key)).lookup "status").getD "" = "suspended" := by
        rw [hkey, lookup_setField_self]
        rfl
      simp only [hh, hne, hstatus]
      simp
    · simp [hh]
  · simp [hfmt]

/-- C10: `validate_api_key` is total at the public interface — the
embedding returns a `SecurityContext` on every input (malformed key,
missing record, non-active status, IP-allowlist miss, and the store
exception modelled by `healthy = false` are all caught) — and every
rejection path yields a context with empty identity, tier, permissions and
rate limits. -/
theorem C10_validate_total_and_rejections_empty (st : KVStore) (api_key : String)
    (ip_address : Option String) (now : ℤ)
    (h : (validate_api_key st api_key ip_address now).1.is_valid = false) :
    (validate_api_key st api_key ip_address now).1.api_key_id = "" ∧
    (validate_api_key st api_key ip_address now).1.user_id = "" ∧
    (validate_api_key st api_key ip_address now).1.tier = "" ∧
    (validate_api_key st api_key ip_address now).1.permissions = [] ∧
    (validate_api_key st api_key ip_address now).1.rate_limits = [] := by
  simp only [validate_api_key] at h ⊢
  split_ifs at h ⊢ <;> simp_all

/-- Witness for C10: a malformed key against an empty store is rejected,
and the rejection context is empty. -/
theorem C10_validate_total_and_rejections_empty_witness :
    (validate_api_key emptyKV "bad" Option.none 0).1.is_valid = false ∧
    ((validate_api_key emptyKV "bad" Option.none 0).1.api_key_id = "" ∧
     (validate_api_key emptyKV "bad" Option.none 0).1.user_id = "" ∧
     (validate_api_key emptyKV "bad" Option.none 0).1.tier = "" ∧
     (validate_api_key emptyKV "bad" Option.none 0).1.permissions = [] ∧
     (validate_api_key emptyKV "bad" Option.none 0).1.rate_limits = []) :=
  ⟨by decide, C10_validate_total_and_rejections_empty emptyKV "bad" Option.none 0 (by decide)⟩

/-- C9: every key produced by `generate_api_key` (for any real hexdigest,
which returns 64 hex characters) starts with `"ac_live_"` and is exactly 40
characters long, so the malformed-token format pre-check of
`validate_api_key` (`key_format_ok`) accepts it. -/
theorem C9_generate_validate_format_roundtrip (hexdigest : String → String)
    (hlen : ∀ s, (hexdigest s).length = 64)
    (st : KVStore) (user_id tier : String) (now : ℤ) :
    key_format_ok (generate_api_key hexdigest st user_id tier now).1 = true := by
  have hkey : (generate_api_key hexdigest st user_id tier now).1
      = "ac_live_" ++ pySlice (hexdigest (user_id ++ ":" ++ toString now ++ ":" ++ tier)) 32 :=
    rfl
  rw [hkey]
  set d := hexdigest (user_id ++ ":" ++ toString now ++ ":" ++ tier) with hd
  have hdlen : d.data.length = 64 := hlen _
  have hdata : ("ac_live_" ++ pySlice d 32).data = "ac_live_".data ++ d.data.take 32 := by
    rw [String.data_append]
    rfl
  have htake : ("ac_live_" ++ pySlice d 32).data.take 8 = "ac_live_".data := by
    rw [hdata]
    exact List.take_left' (by decide)
  have hlen40 : ("ac_live_" ++ pySlice d 32).length = 40 := by
    rw [String.length_append]
    have h1 : ("ac_live_" : String).length = 8 := by decide
    have h2 : (pySlice d 32).length = 32 := by
      show (d.data.take 32).length = 32
      rw [List.length_take, hdlen]
      decide
    rw [h1, h2]
  unfold key_format_ok
  rw [htake, hlen40]
  simp

/-- Witness for C9 with a concrete 64-character hexdigest function. -/
theorem C9_generate_validate_format_roundtrip_witness :
    (∀ s, ((fun _ : String => String.mk (List.replicate 64 'a')) s).length = 64) ∧
    key_format_ok (generate_api_key (fun _ => String.mk (List.replicate 64 'a'))
        emptyKV "alice" "free" 0).1 = true :=
  ⟨fun _ => (by decide : (String.mk (List.replicate 64 'a')).length = 64),
   C9_generate_validate_format_roundtrip (fun _ => String.mk (List.replicate 64 'a'))
     (fun _ => (by decide : (String.mk (List.replicate 64 'a')).length = 64))
     emptyKV "alice" "free" 0⟩

/-- C6 counterexample: a validation call rejected by the IP allowlist does
NOT leave the key record unchanged — the usage counter is incremented from
`"0"` to `"1"` and `last_used` is written, because the usage update runs
before the whitelist check. -/
theorem C6_counterexample :
    (validate_api_key exampleKeyStore exampleKey (some "5.6.7.8") 100).1.is_valid = false ∧
    ((validate_api_key exampleKeyStore exampleKey (some "5.6.7.8") 100).2.hashes
        ("api_key:" ++ exampleKey)).lookup "usage_count" = some "1" ∧
    ((validate_api_key exampleKeyStore exampleKey (some "5.6.7.8") 100).2.hashes
        ("api_key:" ++ exampleKey)).lookup "last_used" = some "100" ∧
    (exampleKeyStore.hashes ("api_key:" ++ exampleKey)).lookup "usage_count" = some "0" := by
  decide

/-- C6 (amended): `validate_api_key` increments the usage count and writes
the last-used timestamp before the IP allowlist check, so a call rejected
because the configured allowlist does not contain the client IP still
increments the stored usage count and updates `last_used`; only the
malformed-key, missing-record, non-active-status and store-exception
rejections leave the record unchanged. -/
theorem C6_amended_ip_reject_still_updates_usage (st : KVStore) (api_key ip : String)
    (now : ℤ)
    (hfmt : key_format_ok api_key = true)
    (hh : st.healthy = true)
    (hne : st.hashes ("api_key:" ++ api_key) ≠ [])
    (hstat : ((st.hashes ("api_key:" ++ api_key)).lookup "status").getD "" = "active")
    (hip : ip ≠ "")
    (hwl : st.sets ("api_key_whitelist:" ++ api_key) ≠ [])
    (hmem : (st.sets ("api_key_whitelist:" ++ api_key)).contains ip = false) :
    (validate_api_key st api_key (some ip) now).1.is_valid = false ∧
    ((validate_api_key st api_key (some ip) now).2.hashes ("api_key:" ++ api_key)).lookup
        "usage_count"
      = some (toString ((((st.hashes ("api_key:" ++ api_key)).lookup
          "usage_count").bind strToInt?).getD 0 + 1)) ∧
    ((validate_api_key st api_key (some ip) now).2.hashes ("api_key:" ++ api_key)).lookup
        "last_used" = some (toString now) := by
  have hval : validate_api_key st api_key (some ip) now
      = (⟨"", "", "", [], [], Option.none, false, 0⟩,
         hset (hincrby st ("api_key:" ++ api_key) "usage_count" 1)
           ("api_key:" ++ api_key) "last_used" (toString now)) := by
    simp only [validate_api_key]
    rw [if_neg (by simp [hfmt]), if_neg (by simp [hh]),
      if_neg (by simp [List.isEmpty_iff, hne]), if_neg (by simp [hstat]),
      if_pos (by
        have hnm : ip ∉ st.sets ("api_key_whitelist:" ++ api_key) := by
          simpa using hmem
        simp [hip, hset, hincrby, List.isEmpty_iff, hwl, hnm])]
  rw [hval]
  refine ⟨rfl, ?_, ?_⟩
  · rw [hset_hashes_self, lookup_setField_ne _ _ _ _ (by decide)]
    simp only [hincrby]
    rw [hset_hashes_self, lookup_setField_self]
  · rw [hset_hashes_self, lookup_setField_self]

/-- Witness for the amended C6 at the concrete store `exampleKeyStore`. -/
theorem C6_amended_ip_reject_still_updates_usage_witness :
    (key_format_ok exampleKey = true ∧
     exampleKeyStore.healthy = true ∧
     exampleKeyStore.hashes ("api_key:" ++ exampleKey) ≠ [] ∧
     ((exampleKeyStore.hashes ("api_key:" ++ exampleKey)).lookup "status").getD ""
        = "active" ∧
     "5.6.7.8" ≠ "" ∧
     exampleKeyStore.sets ("api_key_whitelist:" ++ exampleKey) ≠ [] ∧
     (exampleKeyStore.sets ("api_key_whitelist:" ++ exampleKey)).contains "5.6.7.8"
        = false) ∧
    ((validate_api_key exampleKeyStore exampleKey (some "5.6.7.8") 100).1.is_valid = false ∧
     ((validate_api_key exampleKeyStore exampleKey (some "5.6.7.8") 100).2.hashes
         ("api_key:" ++ exampleKey)).lookup "usage_count"
       = some (toString ((((exampleKeyStore.hashes ("api_key:" ++ exampleKey)).lookup
           "usage_count").bind strToInt?).getD 0 + 1)) ∧
     ((validate_api_key exampleKeyStore exampleKey (some "5.6.7.8") 100).2.hashes
         ("api_key:" ++ exampleKey)).lookup "last_used" = some (toString (100 : ℤ))) :=
  ⟨⟨by decide, by decide, by decide, by decide, by decide, by decide, by decide⟩,
   C6_amended_ip_reject_still_updates_usage exampleKeyStore exampleKey "5.6.7.8" 100
     (by decide) (by decide) (by decide) (by decide) (by decide) (by decide) (by decide)⟩

end ApiKeyTheorems

section ValidatorTheorems

set_option maxRecDepth 10000

attribute [local semireducible] Rat.add Rat.sub Rat.mul Rat.inv Rat.ofScientific

lemma validate_sender_part_risk_nonneg (v : TransactionValidator) (tx : PyDict)
    (i : List String) (r : ℚ) (h : validate_sender_part v tx = .ok (i, r)) : 0 ≤ r := by
  unfold validate_sender_part at h
  dsimp only at h
  repeat' split at h
  all_goals cases h
  all_goals norm_num

lemma validate_receiver_part_risk_nonneg (v : TransactionValidator) (tx : PyDict)
    (i : List String) (r : ℚ) (h : validate_receiver_part v tx = .ok (i, r)) : 0 ≤ r := by
  unfold validate_receiver_part at h
  dsimp only at h
  repeat' split at h
  all_goals cases h
  all_goals norm_num

lemma validate_addresses_risk_nonneg (v : TransactionValidator) (tx : PyDict)
    (i : List String) (r : ℚ) (h : validate_addresses v tx = .ok (i, r)) : 0 ≤ r := by
  unfold validate_addresses at h
  rcases hs : validate_sender_part v tx with e | ⟨i1, r1⟩
  · rw [hs] at h
    cases h
  · rw [hs] at h
    rcases hr : validate_receiver_part v tx with e | ⟨i2, r2⟩
    · rw [hr] at h
      cases h
    · rw [hr] at h
      dsimp only at h
      cases h
      have h1 := validate_sender_part_risk_nonneg v tx i1 r1 hs
      have h2 := validate_receiver_part_risk_nonneg v tx i2 r2 hr
      linarith

lemma detect_replay_attack_risk_nonneg (api_key : String) (tx : PyDict) (st : VStore)
    (now : ℚ) : 0 ≤ ((detect_replay_attack api_key tx st now).1).2 := by
  unfold detect_replay_attack
  dsimp only
  repeat' split
  all_goals norm_num

lemma detect_mev_attack_risk_nonneg (wallet : String) (tx : PyDict) (st : VStore)
    (now : ℚ) : 0 ≤ ((detect_mev_attack wallet tx st now).1).2 := by
  unfold detect_mev_attack
  dsimp only
  repeat' split
  all_goals norm_num

lemma detect_flash_loan_attack_risk_nonneg (wallet : String) (tx : PyDict) (st : VStore)
    (now : ℚ) : 0 ≤ ((detect_flash_loan_attack wallet tx st now).1).2 := by
  unfold detect_flash_loan_attack
  dsimp only
  repeat' split
  all_goals norm_num

lemma analyze_temporal_patterns_risk_nonneg (wallet api_key : String) (st : VStore)
    (now : ℚ) : 0 ≤ ((analyze_temporal_patterns wallet api_key st now).1).2 := by
  unfold analyze_temporal_patterns
  dsimp only
  repeat' split
  all_goals norm_num

lemma validate_contract_interaction_risk_nonneg (tx : PyDict) (st : VStore)
    (i : List String) (r : ℚ) (h : validate_contract_interaction tx st = .ok (i, r)) :
    0 ≤ r := by
  unfold validate_contract_interaction at h
  dsimp only at h
  repeat' split at h
  all_goals cases h
  all_goals norm_num

lemma validate_basic_structure_ok_of_int (tx : PyDict) (f : ℤ)
    (hfee : pyGet tx "fee" (.int 0) = .int f) :
    ∃ i r, validate_basic_structure tx = .ok (i, r) ∧ 0 ≤ r := by
  unfold validate_basic_structure
  rw [hfee]
  dsimp only
  by_cases h1 : f < 1000
  · rw [if_pos h1]
    refine ⟨_, _, rfl, ?_⟩
    dsimp only
    split <;> positivity
  · rw [if_neg h1]
    by_cases h2 : f > 10000
    · rw [if_pos h2]
      refine ⟨_, _, rfl, ?_⟩
      dsimp only
      split <;> positivity
    · rw [if_neg h2]
      refine ⟨_, _, rfl, ?_⟩
      dsimp only
      split <;> positivity

lemma validate_amounts_ok_of_int (wallet : String) (tx : PyDict) (st : VStore) (now : ℚ)
    (m : ℤ) (hamt : pyGet tx "amount" (.int 0) = .int m) :
    ∃ i r s1, validate_amounts wallet tx st now = .ok ((i, r), s1) ∧ 0 ≤ r
      ∧ s1.malicious_contracts = st.malicious_contracts := by
  unfold validate_amounts
  rw [hamt]
  dsimp only
  by_cases hm : m ≤ 0
  · rw [if_pos hm]
    exact ⟨[], 0, st, rfl, le_refl 0, rfl⟩
  · rw [if_neg hm]
    refine ⟨_, _, _, rfl, ?_, rfl⟩
    dsimp only
    repeat' split
    all_goals norm_num

lemma detect_replay_attack_preserves_malicious (api_key : String) (tx : PyDict)
    (st : VStore) (now : ℚ) :
    ((detect_replay_attack api_key tx st now).2).malicious_contracts
      = st.malicious_contracts := by
  unfold detect_replay_attack
  dsimp only

lemma detect_mev_attack_preserves_malicious (wallet : String) (tx : PyDict)
    (st : VStore) (now : ℚ) :
    ((detect_mev_attack wallet tx st now).2).malicious_contracts
      = st.malicious_contracts := by
  unfold detect_mev_attack
  dsimp only
  repeat' split
  all_goals rfl

lemma detect_flash_loan_attack_preserves_malicious (wallet : String) (tx : PyDict)
    (st : VStore) (now : ℚ) :
    ((detect_flash_loan_attack wallet tx st now).2).malicious_contracts
      = st.malicious_contracts := by
  unfold detect_flash_loan_attack
  dsimp only
  repeat' split
  all_goals rfl

lemma validate_contract_interaction_blacklisted (tx : PyDict) (st : VStore) (a : ℤ)
    (htype : pyGet tx "type" PyVal.none = PyVal.str "appl")
    (happ : pyGet tx "application_id" PyVal.none = PyVal.int a)
    (hmal : a ∈ st.malicious_contracts) :
    ∃ i r, validate_contract_interaction tx st = .ok (i, r) ∧ 9 ≤ r := by
  unfold validate_contract_interaction
  rw [if_pos htype, happ]
  dsimp only
  have hc : st.malicious_contracts.contains a = true := by simpa using hmal
  rw [if_pos hc]
  dsimp only
  split
  · exact ⟨_, _, rfl, by norm_num⟩
  · exact ⟨_, _, rfl, by norm_num⟩

/-- C8: for the same API key and an identical transaction fingerprint
recorded at time `t0` (with the 1-hour `setex` TTL), the replay sub-check
contributes risk 7 to a resubmission within 60 seconds, and risk 0 to a
resubmission 10 minutes (600 seconds) later: the earlier resubmission's
contribution is strictly greater. -/
theorem C8_replay_risk_strictly_greater_within_minute (api_key : String) (tx : PyDict)
    (st : VStore) (t0 δ : ℚ)
    (hrec : st.replay ("replay:" ++ api_key ++ ":" ++ create_advanced_fingerprint tx)
        = some (t0, t0 + 3600))
    (hδ0 : 0 ≤ δ) (hδ : δ < 60) :
    ((detect_replay_attack api_key tx st (t0 + δ)).1).2 = 7 ∧
    ((detect_replay_attack api_key tx st (t0 + 600)).1).2 = 0 ∧
    ((detect_replay_attack api_key tx st (t0 + 600)).1).2
      < ((detect_replay_attack api_key tx st (t0 + δ)).1).2 := by
  have h1 : ((detect_replay_attack api_key tx st (t0 + δ)).1).2 = 7 := by
    simp only [detect_replay_attack, tlive]
    rw [hrec]
    dsimp only
    rw [if_pos (by linarith)]
    dsimp only
    rw [if_pos (by linarith)]
  have h2 : ((detect_replay_attack api_key tx st (t0 + 600)).1).2 = 0 := by
    simp only [detect_replay_attack, tlive]
    rw [hrec]
    dsimp only
    rw [if_pos (by linarith)]
    dsimp only
    rw [if_neg (by linarith), if_neg (by linarith)]
  exact ⟨h1, h2, by rw [h1, h2]; norm_num⟩

/-- Witness for C8 at the concrete store `exampleReplayStore` (fingerprint
of `exampleZeroTx` recorded at time 1000) with a resubmission 30 seconds
later versus 600 seconds later. -/
theorem C8_replay_risk_strictly_greater_within_minute_witness :
    (exampleReplayStore.replay
        ("replay:" ++ "k1" ++ ":" ++ create_advanced_fingerprint exampleZeroTx)
        = some (1000, 1000 + 3600) ∧
     (0 : ℚ) ≤ 30 ∧ (30 : ℚ) < 60) ∧
    (((detect_replay_attack "k1" exampleZeroTx exampleReplayStore (1000 + 30)).1).2 = 7 ∧
     ((detect_replay_attack "k1" exampleZeroTx exampleReplayStore (1000 + 600)).1).2 = 0 ∧
     ((detect_replay_attack "k1" exampleZeroTx exampleReplayStore (1000 + 600)).1).2
       < ((detect_replay_attack "k1" exampleZeroTx exampleReplayStore (1000 + 30)).1).2) :=
  ⟨⟨by decide, by decide, by decide⟩,
   C8_replay_risk_strictly_greater_within_minute "k1" exampleZeroTx exampleReplayStore
     1000 30 (by decide) (by decide) (by decide)⟩

/-- C3 counterexample: a payload whose `fee` field is a string makes
`_validate_basic_structure` raise `TypeError`; `validate_transaction`
catches it and returns verdict INVALID with the maximum risk score 10.0 —
not verdict MALICIOUS as the claim states. -/
theorem C3_counterexample :
    (validate_transaction exampleValidator "w" exampleBadFeeTx "k1"
        (freshVStore []) 0).1.result = ValidationResult.INVALID ∧
    (validate_transaction exampleValidator "w" exampleBadFeeTx "k1"
        (freshVStore []) 0).1.result ≠ ValidationResult.MALICIOUS ∧
    (validate_transaction exampleValidator "w" exampleBadFeeTx "k1"
        (freshVStore []) 0).1.risk_score = 10 := by
  refine ⟨rfl, by decide, by decide⟩

/-- C3 (amended): whenever an internal sub-check of `validate_transaction`
raises an unhandled exception, the function fails closed: instead of
propagating the exception it returns a report with verdict INVALID (the
dedicated error verdict, not MALICIOUS) and the maximum risk score 10.0;
the store is as it was at the point the exception was raised. -/
theorem C3_amended_fail_closed_invalid (v : TransactionValidator) (wallet : String)
    (tx : PyDict) (api_key : String) (st : VStore) (now : ℚ) (e : String) (stE : VStore)
    (h : validate_transaction_core v wallet tx api_key st now = .error (e, stE)) :
    validate_transaction v wallet tx api_key st now
      = (⟨ValidationResult.INVALID, 10, ["Validation error: " ++ e], [("error", e)], now,
          ["Block due to validation error"]⟩, stE) := by
  unfold validate_transaction
  rw [h]

/-- Witness for the amended C3: the string-valued fee raises inside the
first sub-check (before any store write), and the returned report is the
INVALID / risk-10 one. -/
theorem C3_amended_fail_closed_invalid_witness :
    validate_transaction_core exampleValidator "w" exampleBadFeeTx "k1" (freshVStore []) 0
        = .error ("TypeError: fee comparison", freshVStore []) ∧
    validate_transaction exampleValidator "w" exampleBadFeeTx "k1" (freshVStore []) 0
      = (⟨ValidationResult.INVALID, 10,
          ["Validation error: " ++ "TypeError: fee comparison"],
          [("error", "TypeError: fee comparison")], 0,
          ["Block due to validation error"]⟩, freshVStore []) :=
  ⟨rfl,
   C3_amended_fail_closed_invalid exampleValidator "w" exampleBadFeeTx "k1"
     (freshVStore []) 0 "TypeError: fee comparison" (freshVStore []) rfl⟩

/-- C4 counterexample: a payment (`"pay"`) transaction naming the
blacklisted contract id 999 in its `application_id` field is NOT flagged:
the contract-interaction check only runs for `"appl"` transactions, so the
verdict is VALID, not MALICIOUS — the claim fails for non-application-call
transaction types. -/
theorem C4_counterexample :
    (999 : ℤ) ∈ (freshVStore [999]).malicious_contracts ∧
    pyGet examplePayTx "application_id" PyVal.none = PyVal.int 999 ∧
    (validate_transaction exampleValidator "w" examplePayTx "k1"
        (freshVStore [999]) 0).1.result = ValidationResult.VALID ∧
    (validate_transaction exampleValidator "w" examplePayTx "k1"
        (freshVStore [999]) 0).1.result ≠ ValidationResult.MALICIOUS := by
  decide

/-- C4 (amended): for every application-call (`"appl"`) transaction whose
called contract id is an integer in the malicious-contract blacklist and
whose validation completes without an internal exception — integer-typed
`fee` and `amount`, and a hashable sender so that the sender blacklist
membership test at line 198 does not raise — `validate_transaction` returns
verdict MALICIOUS regardless of all other field values: the blacklist
contributes risk 9, every other sub-check contributes nonnegative risk, and
9 ≥ the 8.0 MALICIOUS threshold. -/
theorem C4_amended_blacklisted_appl_is_malicious (v : TransactionValidator)
    (wallet : String) (tx : PyDict) (api_key : String) (st : VStore) (now : ℚ)
    (a f m : ℤ)
    (htype : pyGet tx "type" PyVal.none = PyVal.str "appl")
    (happ : pyGet tx "application_id" PyVal.none = PyVal.int a)
    (hmal : a ∈ st.malicious_contracts)
    (hfee : pyGet tx "fee" (PyVal.int 0) = PyVal.int f)
    (hamt : pyGet tx "amount" (PyVal.int 0) = PyVal.int m)
    (hsender : ∃ si sr, validate_sender_part v tx = .ok (si, sr)) :
    (validate_transaction v wallet tx api_key st now).1.result
      = ValidationResult.MALICIOUS := by
  obtain ⟨bi, br, hb, hbr⟩ := validate_basic_structure_ok_of_int tx f hfee
  obtain ⟨si, sr, hsp⟩ := hsender
  have hsr : 0 ≤ sr := validate_sender_part_risk_nonneg v tx si sr hsp
  have hrecv : validate_receiver_part v tx = .ok ([], 0) := by
    unfold validate_receiver_part
    rw [if_neg (by rw [htype]; simp)]
  have had : validate_addresses v tx = .ok (si ++ [], sr + 0) := by
    unfold validate_addresses
    rw [hsp, hrecv]
  obtain ⟨ai, ar, st1, ha, har, hm1⟩ := validate_amounts_ok_of_int wallet tx st now m hamt
  rcases hrp : detect_replay_attack api_key tx st1 now with ⟨⟨ri, rr⟩, st2⟩
  rcases hmv : detect_mev_attack wallet tx st2 now with ⟨⟨mi, mr⟩, st3⟩
  rcases hfl : detect_flash_loan_attack wallet tx st3 now with ⟨⟨fi, fr⟩, st4⟩
  rcases htm : analyze_temporal_patterns wallet api_key st4 now with ⟨⟨ti, tr⟩, st5⟩
  have hrr : 0 ≤ rr := by
    have := detect_replay_attack_risk_nonneg api_key tx st1 now
    rw [hrp] at this
    exact this
  have hmr : 0 ≤ mr := by
    have := detect_mev_attack_risk_nonneg wallet tx st2 now
    rw [hmv] at this
    exact this
  have hfr : 0 ≤ fr := by
    have := detect_flash_loan_attack_risk_nonneg wallet tx st3 now
    rw [hfl] at this
    exact this
  have hm2 : st2.malicious_contracts = st1.malicious_contracts := by
    have := detect_replay_attack_preserves_malicious api_key tx st1 now
    rw [hrp] at this
    exact this
  have hm3 : st3.malicious_contracts = st2.malicious_contracts := by
    have := detect_mev_attack_preserves_malicious wallet tx st2 now
    rw [hmv] at this
    exact this
  have hm4 : st4.malicious_contracts = st3.malicious_contracts := by
    have := detect_flash_loan_attack_preserves_malicious wallet tx st3 now
    rw [hfl] at this
    exact this
  have hmal4 : a ∈ st4.malicious_contracts := by
    rw [hm4, hm3, hm2, hm1]
    exact hmal
  obtain ⟨ci, cr, hct, hcr⟩ :=
    validate_contract_interaction_blacklisted tx st4 a htype happ hmal4
  have htr : 0 ≤ tr := by
    have := analyze_temporal_patterns_risk_nonneg wallet api_key st4 now
    rw [htm] at this
    exact this
  have hsum : br + (sr + 0) + ar + rr + mr + fr + cr + tr ≥ 8 := by linarith
  unfold validate_transaction validate_transaction_core
  rw [hb]
  dsimp only
  rw [had]
  dsimp only
  rw [ha]
  dsimp only
  rw [hrp]
  dsimp only
  rw [hmv]
  dsimp only
  rw [hfl]
  dsimp only
  rw [hct]
  dsimp only
  rw [htm]
  dsimp only
  rw [if_pos hsum]

/-- Witness for the amended C4 at the concrete `"appl"` payload
`exampleApplTx` against the malicious-contract set `[999]`. -/
theorem C4_amended_blacklisted_appl_is_malicious_witness :
    (pyGet exampleApplTx "type" PyVal.none = PyVal.str "appl" ∧
     pyGet exampleApplTx "application_id" PyVal.none = PyVal.int 999 ∧
     (999 : ℤ) ∈ (freshVStore [999]).malicious_contracts ∧
     pyGet exampleApplTx "fee" (PyVal.int 0) = PyVal.int 1000 ∧
     pyGet exampleApplTx "amount" (PyVal.int 0) = PyVal.int 0 ∧
     validate_sender_part exampleValidator exampleApplTx = .ok ([], 0)) ∧
    (validate_transaction exampleValidator "w" exampleApplTx "k1"
        (freshVStore [999]) 0).1.result = ValidationResult.MALICIOUS :=
  ⟨⟨by decide, by decide, by decide, by decide, by decide, rfl⟩,
   C4_amended_blacklisted_appl_is_malicious exampleValidator "w" exampleApplTx "k1"
     (freshVStore [999]) 0 999 1000 0
     (by decide) (by decide) (by decide) (by decide) (by decide) ⟨[], 0, rfl⟩⟩

lemma validate_basic_structure_clean (tx : PyDict) (T : String) (f : ℤ)
    (h_type : pyGet tx "type" PyVal.none = PyVal.str T)
    (hT : T ∈ ["pay", "keyreg", "acfg", "axfer", "afrz", "appl"])
    (hk_type : pyHasKey tx "type" = true)
    (hk_sender : pyHasKey tx "sender" = true)
    (hk_fee : pyHasKey tx "fee" = true)
    (h_fee : pyGet tx "fee" (PyVal.int 0) = PyVal.int f)
    (hf1 : 1000 ≤ f) (hf2 : f ≤ 10000) :
    validate_basic_structure tx = .ok ([], 0) := by
  unfold validate_basic_structure
  rw [h_fee]
  dsimp only
  rw [if_neg (by omega : ¬ f < 1000), if_neg (by omega : ¬ f > 10000)]
  have hany : (["pay", "keyreg", "acfg", "axfer", "afrz", "appl"].any
      (fun t => pyGet tx "type" PyVal.none == PyVal.str t)) = true := by
    rw [h_type]
    exact List.any_eq_true.mpr ⟨T, hT, by simp⟩
  simp [hany, hk_type, hk_sender, hk_fee]

lemma validate_addresses_clean (v : TransactionValidator) (tx : PyDict) (S : String)
    (h_sender : pyGet tx "sender" PyVal.none = PyVal.str S)
    (hS0 : S ≠ "") (hS58 : S.length = 58)
    (hSdec : v.decode_address_ok S = true)
    (hSbl : S ∉ v.blacklisted_addresses)
    (h_recv : pyGet tx "receiver" PyVal.none = PyVal.none) :
    validate_addresses v tx = .ok ([], 0) := by
  have hbl : v.blacklisted_addresses.contains S = false := by simpa using hSbl
  have hvalid : is_valid_algorand_address v (PyVal.str S) = true := by
    show (if S = "" ∨ S.length ≠ 58 then false else v.decode_address_ok S) = true
    rw [if_neg (by simp [hS0, hS58])]
    exact hSdec
  have hsend : validate_sender_part v tx = .ok ([], 0) := by
    unfold validate_sender_part
    rw [h_sender]
    dsimp only
    simp [PyVal.truthy, hS0, hbl, hvalid, hSbl]
  have hrecv : validate_receiver_part v tx = .ok ([], 0) := by
    unfold validate_receiver_part
    split
    · rw [h_recv]
      dsimp only
      rw [if_neg (by simp [PyVal.truthy])]
    · rfl
  unfold validate_addresses
  rw [hsend, hrecv]
  dsimp only
  norm_num

lemma validate_amounts_zero (wallet : String) (tx : PyDict) (st : VStore) (now : ℚ)
    (h_amt : pyGet tx "amount" (PyVal.int 0) = PyVal.int 0) :
    validate_amounts wallet tx st now = .ok (([], 0), st) := by
  unfold validate_amounts
  rw [h_amt]
  dsimp only
  rw [if_pos (le_refl (0 : ℤ))]

lemma detect_replay_attack_fresh (api_key : String) (tx : PyDict) (st : VStore) (now : ℚ)
    (h : st.replay ("replay:" ++ api_key ++ ":" ++ create_advanced_fingerprint tx)
        = Option.none) :
    (detect_replay_attack api_key tx st now).1 = ([], 0) := by
  simp only [detect_replay_attack, tlive]
  rw [h]

lemma detect_replay_attack_preserves_mev_timing (api_key : String) (tx : PyDict)
    (st : VStore) (now : ℚ) :
    ((detect_replay_attack api_key tx st now).2).mev_timing = st.mev_timing := by
  unfold detect_replay_attack
  dsimp only

lemma detect_replay_attack_preserves_temporal (api_key : String) (tx : PyDict)
    (st : VStore) (now : ℚ) :
    ((detect_replay_attack api_key tx st now).2).temporal = st.temporal := by
  unfold detect_replay_attack
  dsimp only

lemma detect_mev_attack_fresh (wallet : String) (tx : PyDict) (st : VStore) (now : ℚ)
    (h : st.mev_timing ("mev_timing:" ++ wallet) = Option.none) :
    (detect_mev_attack wallet tx st now).1 = ([], 0) := by
  simp only [detect_mev_attack, tlive]
  simp only [h]
  simp

lemma detect_mev_attack_preserves_temporal (wallet : String) (tx : PyDict)
    (st : VStore) (now : ℚ) :
    ((detect_mev_attack wallet tx st now).2).temporal = st.temporal := by
  unfold detect_mev_attack
  dsimp only
  repeat' split
  all_goals rfl

lemma detect_flash_loan_attack_zero (wallet : String) (tx : PyDict) (st : VStore)
    (now : ℚ) (h_amt : pyGet tx "amount" (PyVal.int 0) = PyVal.int 0) :
    detect_flash_loan_attack wallet tx st now = (([], 0), st) := by
  unfold detect_flash_loan_attack
  rw [h_amt]
  dsimp only
  rw [if_neg (by norm_num)]

lemma analyze_temporal_patterns_fresh (wallet api_key : String) (st : VStore) (now : ℚ)
    (h : st.temporal ("temporal:" ++ api_key ++ ":" ++ wallet) = Option.none) :
    (analyze_temporal_patterns wallet api_key st now).1 = ([], 0) := by
  simp only [analyze_temporal_patterns, tlive]
  simp only [h]
  simp

lemma validate_contract_interaction_clean (tx : PyDict) (st : VStore)
    (h_app : match pyGet tx "application_id" PyVal.none with
      | PyVal.int a => a ∉ st.malicious_contracts
      | PyVal.list _ => pyGet tx "type" PyVal.none ≠ PyVal.str "appl"
      | _ => True)
    (h_args : contains_suspicious_args (pyGet tx "application_args" (PyVal.list []))
        = false) :
    validate_contract_interaction tx st = .ok ([], 0) := by
  unfold validate_contract_interaction
  by_cases htp : pyGet tx "type" PyVal.none = PyVal.str "appl"
  · rw [if_pos htp]
    cases happ : pyGet tx "application_id" PyVal.none with
    | list xs =>
        rw [happ] at h_app
        exact absurd htp (by simpa using h_app)
    | int a =>
        rw [happ] at h_app
        dsimp only
        have hmem : a ∉ st.malicious_contracts := by simpa using h_app
        have hbl : st.malicious_contracts.contains a = false := by simpa using hmem
        simp [hbl, h_args, hmem]
    | none =>
        dsimp only
        simp [h_args]
    | str s =>
        dsimp only
        simp [h_args]
  · rw [if_neg htp]

/-- C7: a transaction with amount 0 and no other issues — type in the
allowed set, sender present, well-formed (a string, hence hashable) and not
blacklisted, fee within the sane band `[1000, 10000]`, no receiver, no
blacklisted contract, no unhashable (list-valued) application id on an
application call (which would raise `TypeError` at the blacklist membership
test), and no suspicious arguments — evaluated against a store with no
prior history for the wallet or key, yields verdict VALID with risk
score 0. -/
theorem C7_zero_amount_clean_payload_valid (v : TransactionValidator)
    (wallet : String) (tx : PyDict) (api_key : String) (st : VStore) (now : ℚ)
    (T S : String) (f : ℤ)
    (h_type : pyGet tx "type" PyVal.none = PyVal.str T)
    (hT : T ∈ ["pay", "keyreg", "acfg", "axfer", "afrz", "appl"])
    (hk_type : pyHasKey tx "type" = true)
    (hk_sender : pyHasKey tx "sender" = true)
    (hk_fee : pyHasKey tx "fee" = true)
    (h_sender : pyGet tx "sender" PyVal.none = PyVal.str S)
    (hS0 : S ≠ "") (hS58 : S.length = 58)
    (hSdec : v.decode_address_ok S = true)
    (hSbl : S ∉ v.blacklisted_addresses)
    (h_recv : pyGet tx "receiver" PyVal.none = PyVal.none)
    (h_fee : pyGet tx "fee" (PyVal.int 0) = PyVal.int f)
    (hf1 : 1000 ≤ f) (hf2 : f ≤ 10000)
    (h_amt : pyGet tx "amount" (PyVal.int 0) = PyVal.int 0)
    (h_replay : st.replay ("replay:" ++ api_key ++ ":" ++ create_advanced_fingerprint tx)
        = Option.none)
    (h_mev : st.mev_timing ("mev_timing:" ++ wallet) = Option.none)
    (h_tmp : st.temporal ("temporal:" ++ api_key ++ ":" ++ wallet) = Option.none)
    (h_app : match pyGet tx "application_id" PyVal.none with
      | PyVal.int a => a ∉ st.malicious_contracts
      | PyVal.list _ => pyGet tx "type" PyVal.none ≠ PyVal.str "appl"
      | _ => True)
    (h_args : contains_suspicious_args (pyGet tx "application_args" (PyVal.list []))
        = false) :
    (validate_transaction v wallet tx api_key st now).1.result = ValidationResult.VALID ∧
    (validate_transaction v wallet tx api_key st now).1.risk_score = 0 := by
  have hb := validate_basic_structure_clean tx T f h_type hT hk_type hk_sender hk_fee
    h_fee hf1 hf2
  have had := validate_addresses_clean v tx S h_sender hS0 hS58 hSdec hSbl h_recv
  have ha := validate_amounts_zero wallet tx st now h_amt
  rcases hrp : detect_replay_attack api_key tx st now with ⟨pr, st2⟩
  have hpr : pr = ([], 0) := by
    have := detect_replay_attack_fresh api_key tx st now h_replay
    rw [hrp] at this
    exact this
  have hst2mev : st2.mev_timing = st.mev_timing := by
    have := detect_replay_attack_preserves_mev_timing api_key tx st now
    rw [hrp] at this
    exact this
  have hst2tmp : st2.temporal = st.temporal := by
    have := detect_replay_attack_preserves_temporal api_key tx st now
    rw [hrp] at this
    exact this
  have hst2mal : st2.malicious_contracts = st.malicious_contracts := by
    have := detect_replay_attack_preserves_malicious api_key tx st now
    rw [hrp] at this
    exact this
  rcases hmv : detect_mev_attack wallet tx st2 now with ⟨pm, st3⟩
  have hpm : pm = ([], 0) := by
    have := detect_mev_attack_fresh wallet tx st2 now (by rw [hst2mev]; exact h_mev)
    rw [hmv] at this
    exact this
  have hst3tmp : st3.temporal = st2.temporal := by
    have := detect_mev_attack_preserves_temporal wallet tx st2 now
    rw [hmv] at this
    exact this
  have hst3mal : st3.malicious_contracts = st2.malicious_contracts := by
    have := detect_mev_attack_preserves_malicious wallet tx st2 now
    rw [hmv] at this
    exact this
  have hfl := detect_flash_loan_attack_zero wallet tx st3 now h_amt
  have hct := validate_contract_interaction_clean tx st3
    (by
      cases happ : pyGet tx "application_id" PyVal.none with
      | int a =>
          rw [happ] at h_app
          simpa [hst3mal, hst2mal] using h_app
      | list xs =>
          rw [happ] at h_app
          simpa using h_app
      | none => trivial
      | str s => trivial)
    h_args
  rcases htm2 : analyze_temporal_patterns wallet api_key st3 now with ⟨pt, st5⟩
  have hpt : pt = ([], 0) := by
    have := analyze_temporal_patterns_fresh wallet api_key st3 now
      (by rw [hst3tmp, hst2tmp]; exact h_tmp)
    rw [htm2] at this
    exact this
  unfold validate_transaction validate_transaction_core
  rw [hb]
  dsimp only
  rw [had]
  dsimp only
  rw [ha]
  dsimp only
  rw [hrp, hpr]
  dsimp only
  rw [hmv, hpm]
  dsimp only
  rw [hfl]
  dsimp only
  rw [hct]
  dsimp only
  rw [htm2, hpt]
  dsimp only
  norm_num

/-- Witness for C7: the zero-amount payment `exampleZeroTx` against a fresh
store yields VALID with risk 0. -/
theorem C7_zero_amount_clean_payload_valid_witness :
    (pyGet exampleZeroTx "type" PyVal.none = PyVal.str "pay" ∧
     "pay" ∈ ["pay", "keyreg", "acfg", "axfer", "afrz", "appl"] ∧
     pyHasKey exampleZeroTx "type" = true ∧
     pyHasKey exampleZeroTx "sender" = true ∧
     pyHasKey exampleZeroTx "fee" = true ∧
     pyGet exampleZeroTx "sender" PyVal.none = PyVal.str exampleSender ∧
     exampleSender ≠ "" ∧
     exampleSender.length = 58 ∧
     exampleValidator.decode_address_ok exampleSender = true ∧
     exampleSender ∉ exampleValidator.blacklisted_addresses ∧
     pyGet exampleZeroTx "receiver" PyVal.none = PyVal.none ∧
     pyGet exampleZeroTx "fee" (PyVal.int 0) = PyVal.int 1000 ∧
     (1000 : ℤ) ≤ 1000 ∧ (1000 : ℤ) ≤ 10000 ∧
     pyGet exampleZeroTx "amount" (PyVal.int 0) = PyVal.int 0 ∧
     (freshVStore []).replay
        ("replay:" ++ "k1" ++ ":" ++ create_advanced_fingerprint exampleZeroTx)
        = Option.none ∧
     (freshVStore []).mev_timing ("mev_timing:" ++ "w") = Option.none ∧
     (freshVStore []).temporal ("temporal:" ++ "k1" ++ ":" ++ "w") = Option.none ∧
     contains_suspicious_args (pyGet exampleZeroTx "application_args" (PyVal.list []))
        = false) ∧
    ((validate_transaction exampleValidator "w" exampleZeroTx "k1"
        (freshVStore []) 0).1.result = ValidationResult.VALID ∧
     (validate_transaction exampleValidator "w" exampleZeroTx "k1"
        (freshVStore []) 0).1.risk_score = 0) :=
  ⟨⟨by decide, by decide, by decide, by decide, by decide, by decide, by decide,
    by decide, by decide, by decide, by decide, by decide, by decide, by decide,
    by decide, rfl, rfl, rfl, by decide⟩,
   C7_zero_amount_clean_payload_valid exampleValidator "w" exampleZeroTx "k1"
     (freshVStore []) 0 "pay" exampleSender 1000
     (by decide) (by decide) (by decide) (by decide) (by decide) (by decide)
     (by decide) (by decide) (by decide) (by decide) (by decide) (by decide)
     (by decide) (by decide) (by decide) rfl rfl rfl (by trivial) (by decide)⟩
end ValidatorTheorems
